import Mathlib

/-!
Shallow embedding of the answer-equivalence evaluation engine of the
math-solver backend (`app/modules/math_solving/evaluation/metrics.py`).

Python strings are modelled as `List Char` (with `String` wrappers at the
API level); Python floats are modelled as exact rationals `ℚ`.  The ASCII
fragment of Python's case conversion, whitespace and digit classes is
modelled; the inputs of interest are ASCII.  The `re` patterns of the
source are translated into a small backtracking regular-expression engine
(`RE` / `runRE`) whose alternation, greedy-star and optional semantics
follow Python's leftmost search with backtracking.
-/

namespace MathEval

/-- Python whitespace characters (the ASCII ones of `str.isspace`). -/
def isPyWs (c : Char) : Bool :=
  c = ' ' || c = '\t' || c = '\n' || c = '\r' || c = '\x0b' || c = '\x0c'

/-- ASCII decimal digit, the class `\d` restricted to ASCII. -/
def isDigitC (c : Char) : Bool :=
  '0' ≤ c && c ≤ '9'

/-- Membership in Python's `string.punctuation`
(ASCII codepoints 33-47, 58-64, 91-96, 123-126). -/
def isPunctC (c : Char) : Bool :=
  (33 ≤ c.toNat && c.toNat ≤ 47) || (58 ≤ c.toNat && c.toNat ≤ 64) ||
  (91 ≤ c.toNat && c.toNat ≤ 96) || (123 ≤ c.toNat && c.toNat ≤ 126)

/-- Not a line break: the class `[^\n\r]`. -/
def isNotNL (c : Char) : Bool :=
  !(c = '\n' || c = '\r')

/-- Python `str.lower()` (ASCII fragment), characterwise. -/
def pyLower (t : List Char) : List Char :=
  t.map Char.toLower

/-- Drop the characters of a set from the front of a list. -/
def dropSet (p : Char → Bool) (t : List Char) : List Char :=
  t.dropWhile p

/-- Python `str.strip(chars)`: remove characters of the set from both ends. -/
def pyStripSet (p : Char → Bool) (t : List Char) : List Char :=
  ((t.dropWhile p).reverse.dropWhile p).reverse

/-- Python `str.strip()` (whitespace strip). -/
def pyStrip (t : List Char) : List Char :=
  pyStripSet isPyWs t

/-- Python substring test `p in t` (`p` is the candidate substring). -/
def pyContains (t p : List Char) : Bool :=
  (List.range (t.length + 1)).any fun i => p.isPrefixOf (t.drop i)

/-- Python `str.replace(pat, repl)`: replace every non-overlapping
occurrence of `pat`, scanning left to right (worker: `skip` counts the
characters of a recognised occurrence still to be dropped). -/
def pyReplaceGo (pat repl : List Char) : List Char → Nat → List Char
  | [], _ => []
  | _ :: cs, skip + 1 => pyReplaceGo pat repl cs skip
  | c :: cs, 0 =>
    if !pat.isEmpty && pat.isPrefixOf (c :: cs) then
      repl ++ pyReplaceGo pat repl cs (pat.length - 1)
    else
      c :: pyReplaceGo pat repl cs 0

/-- Python `str.replace(pat, repl)` for a non-empty `pat`. -/
def pyReplace (pat repl t : List Char) : List Char :=
  pyReplaceGo pat repl t 0

/-- Python no-argument `str.split()`: split on whitespace runs, dropping
empty tokens (auxiliary accumulator form). -/
def splitWsAux : List Char → List Char → List (List Char)
  | [], acc => if acc.isEmpty then [] else [acc.reverse]
  | c :: cs, acc =>
    if isPyWs c then
      if acc.isEmpty then splitWsAux cs [] else acc.reverse :: splitWsAux cs []
    else
      splitWsAux cs (c :: acc)

/-- Python no-argument `str.split()`. -/
def pySplit (t : List Char) : List (List Char) :=
  splitWsAux t []

/-- Python `str.split(sep)` for a one-character separator: keeps empty
pieces, as the source's `split("\n")` does. -/
def splitOn (sep : Char) : List Char → List (List Char)
  | [] => [[]]
  | c :: cs =>
    if c = sep then [] :: splitOn sep cs
    else
      match splitOn sep cs with
      | h :: t => (c :: h) :: t
      | [] => [[c]]

/-- Decimal value of a digit list (most significant first). -/
def digitsToNat (l : List Char) : Nat :=
  l.foldl (fun a c => 10 * a + (c.toNat - 48)) 0

/-- The rational value of a matched numeral `digits` or `digits.digits`,
the exact value Python's `float()` converts the matched text from (when
there is no fractional part the second summand is `0 / 1 = 0`). -/
def parseNumChars (l : List Char) : ℚ :=
  (digitsToNat (l.takeWhile isDigitC) : ℚ) +
    (digitsToNat ((l.dropWhile isDigitC).drop 1) : ℚ) /
      (10 : ℚ) ^ ((l.dropWhile isDigitC).drop 1).length

/-- Regular expressions as used by the source module: case-insensitive
literals, one-character classes, greedy star/plus over a class, greedy
option, alternation, sequencing, and capturing groups. -/
inductive RE where
  | litCI : List Char → RE
  | cls : (Char → Bool) → RE
  | star : (Char → Bool) → RE
  | rep1 : (Char → Bool) → RE
  | opt : RE → RE
  | alt : RE → RE → RE
  | seq : RE → RE → RE
  | grp : RE → RE

/-- Captured groups, in order of occurrence. -/
abbrev Caps := List (List Char)

/-- Result of a match attempt: the captures and the unconsumed rest. -/
abbrev MRes := Option (Caps × List Char)

/-- Drop a case-insensitive literal (stored lowercase) from the front. -/
def dropLitCI : List Char → List Char → Option (List Char)
  | [], t => some t
  | _ :: _, [] => none
  | l :: ls, c :: cs => if c.toLower = l then dropLitCI ls cs else none

/-- Greedy loop for `star`: try consuming `j` characters for `j` from the
given bound down to `0`, backtracking into the continuation. -/
def starLoop (t : List Char) (caps : Caps) (k : List Char → Caps → MRes) : Nat → MRes
  | 0 => k t caps
  | j + 1 =>
    match k (t.drop (j + 1)) caps with
    | some r => some r
    | none => starLoop t caps k j

/-- Run a regular expression at the head of the input in
continuation-passing style; greedy components backtrack through the
continuation exactly as Python's `re` engine does. -/
def runRE : RE → List Char → Caps → (List Char → Caps → MRes) → MRes
  | .litCI l, t, caps, k =>
    match dropLitCI l t with
    | some r => k r caps
    | none => none
  | .cls p, t, caps, k =>
    match t with
    | c :: cs => if p c then k cs caps else none
    | [] => none
  | .star p, t, caps, k => starLoop t caps k (t.takeWhile p).length
  | .rep1 p, t, caps, k =>
    match t with
    | c :: cs => if p c then starLoop cs caps k (cs.takeWhile p).length else none
    | [] => none
  | .opt r, t, caps, k =>
    match runRE r t caps k with
    | some res => some res
    | none => k t caps
  | .alt r1 r2, t, caps, k =>
    match runRE r1 t caps k with
    | some res => some res
    | none => runRE r2 t caps k
  | .seq r1 r2, t, caps, k =>
    runRE r1 t caps fun t2 caps2 => runRE r2 t2 caps2 k
  | .grp r, t, caps, k =>
    runRE r t caps fun t2 caps2 => k t2 (caps2 ++ [t.take (t.length - t2.length)])

/-- `re.search`: try a match at every position, leftmost first. -/
def searchRE (r : RE) : List Char → MRes
  | [] => runRE r [] [] fun rest caps => some (caps, rest)
  | c :: cs =>
    match runRE r (c :: cs) [] (fun rest caps => some (caps, rest)) with
    | some res => some res
    | none => searchRE r cs

/-- `re.sub`: replace every match (computed from its captures), scanning
left to right and continuing after each match.  The worker's `skip`
counts the characters of a recognised match still to be dropped; the
patterns substituted by the source always consume at least one
character. -/
def subREGo (r : RE) (f : Caps → List Char) : List Char → Nat → List Char
  | [], _ => []
  | _ :: cs, skip + 1 => subREGo r f cs skip
  | c :: cs, 0 =>
    match runRE r (c :: cs) [] (fun rest caps => some (caps, rest)) with
    | some (caps, rest) => f caps ++ subREGo r f cs (cs.length - rest.length)
    | none => c :: subREGo r f cs 0

/-- `re.sub` over the whole input. -/
def subRE (r : RE) (f : Caps → List Char) (t : List Char) : List Char :=
  subREGo r f t 0

/-- The numeral scan `\d+(?:\.\d+)?` as a single capturing pattern. -/
def reNum : RE :=
  .grp (.seq (.rep1 isDigitC) (.opt (.seq (.cls (· = '.')) (.rep1 isDigitC))))

/-- The mixed-number pattern `(\d+)\s+(\d+)/(\d+)` of `_normalize_fractions`. -/
def reMixed : RE :=
  .seq (.grp (.rep1 isDigitC)) (.seq (.rep1 isPyWs) (.seq (.grp (.rep1 isDigitC))
    (.seq (.cls (· = '/')) (.grp (.rep1 isDigitC)))))

/-- Replacement of a mixed-number match: `W N/D` becomes `(W*D+N)/D`, both
numbers re-rendered from their integer values. -/
def mixedRepl (caps : Caps) : List Char :=
  let whole := digitsToNat (caps.getD 0 [])
  let num := digitsToNat (caps.getD 1 [])
  let den := digitsToNat (caps.getD 2 [])
  Nat.toDigits 10 (whole * den + num) ++ '/' :: Nat.toDigits 10 den

/-- The fraction-spacing pattern `(\d+)\s*/\s*(\d+)` of `_normalize_fractions`. -/
def reFracSpacing : RE :=
  .seq (.grp (.rep1 isDigitC)) (.seq (.star isPyWs) (.seq (.cls (· = '/'))
    (.seq (.star isPyWs) (.grp (.rep1 isDigitC)))))

/-- Replacement `\1/\2` for the fraction-spacing pattern. -/
def fracSpacingRepl (caps : Caps) : List Char :=
  caps.getD 0 [] ++ '/' :: caps.getD 1 []

/-- The percentage pattern `(\d+(?:\.\d+)?)\s*%` of `_normalize_percentages`. -/
def rePercent : RE :=
  .seq reNum (.seq (.star isPyWs) (.cls (· = '%')))

/-- Replacement `\1 percent` for the percentage pattern. -/
def percentRepl (caps : Caps) : List Char :=
  caps.getD 0 [] ++ (" percent").data

/-- A whitespace run, the pattern `\s+` collapsed to one space at the end
of `_normalize_mathematical_answer`. -/
def reWsRun : RE := .rep1 isPyWs

/-- Step 1 of `_normalize_mathematical_answer`: `answer.lower().strip()`. -/
def lowerStrip (t : List Char) : List Char := pyStrip (pyLower t)

/-- The label text removed at the front of an answer, in source order. -/
def prefixes_to_remove : List (List Char) :=
  [("answer:").data, ("solution:").data, ("result:").data,
   ("the answer is").data, ("final answer:").data]

/-- Step 2 of `_normalize_mathematical_answer`: for each listed label in
order, if the current string starts with it, drop it and re-strip. -/
def stripLabels (t : List Char) : List Char :=
  prefixes_to_remove.foldl (fun n p => if p.isPrefixOf n then pyStrip (n.drop p.length) else n) t

/-- The symbol substitution table, in source order. -/
def symbol_replacements : List (List Char × List Char) :=
  [(("°").data, (" degrees").data), (("∠").data, ("angle ").data),
   (("∆").data, ("triangle ").data), (("π").data, ("pi").data),
   (("√").data, ("sqrt").data), (("²").data, ("^2").data),
   (("³").data, ("^3").data), (("¼").data, ("1/4").data),
   (("½").data, ("1/2").data), (("¾").data, ("3/4").data),
   (("∞").data, ("infinity").data)]

/-- Step 3 of `_normalize_mathematical_answer`: sequential `str.replace`
over the symbol table. -/
def applySymbols (t : List Char) : List Char :=
  symbol_replacements.foldl (fun n pr => pyReplace pr.1 pr.2 n) t

/-- `_normalize_fractions`: mixed-number conversion, then collapse of
whitespace around the fraction slash. -/
def normalize_fractions (t : List Char) : List Char :=
  subRE reFracSpacing fracSpacingRepl (subRE reMixed mixedRepl t)

/-- `_normalize_percentages`. -/
def normalize_percentages (t : List Char) : List Char :=
  subRE rePercent percentRepl t

/-- The unit substitution table, in source order. -/
def unit_mappings : List (List Char × List Char) :=
  [(("cm^3").data, ("cubic cm").data), (("cm³").data, ("cubic cm").data),
   (("m^2").data, ("square m").data), (("m²").data, ("square m").data),
   (("kg").data, ("kilograms").data), (("litres").data, ("liters").data),
   (("mins").data, ("minutes").data), (("min").data, ("minutes").data)]

/-- `_normalize_units`: sequential `str.replace` over the unit table. -/
def normalize_units (t : List Char) : List Char :=
  unit_mappings.foldl (fun n pr => pyReplace pr.1 pr.2 n) t

/-- Final cleanup, first half: collapse each whitespace run to a space. -/
def collapseWs (t : List Char) : List Char :=
  subRE reWsRun (fun _ => [' ']) t

/-- Final cleanup, second half: `strip(string.punctuation + " ")`. -/
def stripPunctWs (t : List Char) : List Char :=
  pyStripSet (fun c => isPunctC c || c = ' ') t

/-- `_normalize_mathematical_answer` on character lists: the full pipeline
in source order, with the falsy-input guard in front. -/
def normalizeChars (t : List Char) : List Char :=
  if t = [] then []
  else stripPunctWs (collapseWs (normalize_units (normalize_percentages
    (normalize_fractions (applySymbols (stripLabels (lowerStrip t)))))))

/-- `_normalize_mathematical_answer`. -/
def normalize_mathematical_answer (s : String) : String :=
  String.mk (normalizeChars s.data)

/-- Pattern `(?:final\s+)?answer\s*:?\s*([^\n\r]+)` (case-insensitive). -/
def reAnswer : RE :=
  .seq (.opt (.seq (.litCI ("final").data) (.rep1 isPyWs)))
    (.seq (.litCI ("answer").data)
      (.seq (.star isPyWs) (.seq (.opt (.cls (· = ':')))
        (.seq (.star isPyWs) (.grp (.rep1 isNotNL))))))

/-- Pattern `(?:the\s+)?(?:solution|result)\s+is\s*:?\s*([^\n\r]+)`. -/
def reSolutionIs : RE :=
  .seq (.opt (.seq (.litCI ("the").data) (.rep1 isPyWs)))
    (.seq (.alt (.litCI ("solution").data) (.litCI ("result").data))
      (.seq (.rep1 isPyWs) (.seq (.litCI ("is").data)
        (.seq (.star isPyWs) (.seq (.opt (.cls (· = ':')))
          (.seq (.star isPyWs) (.grp (.rep1 isNotNL))))))))

/-- Pattern `therefore\s*,?\s*([^\n\r]+)`. -/
def reTherefore : RE :=
  .seq (.litCI ("therefore").data)
    (.seq (.star isPyWs) (.seq (.opt (.cls (· = ',')))
      (.seq (.star isPyWs) (.grp (.rep1 isNotNL)))))

/-- Pattern `thus\s*,?\s*([^\n\r]+)`. -/
def reThus : RE :=
  .seq (.litCI ("thus").data)
    (.seq (.star isPyWs) (.seq (.opt (.cls (· = ',')))
      (.seq (.star isPyWs) (.grp (.rep1 isNotNL)))))

/-- The answer patterns of `_extract_answer_from_response`, in order. -/
def answer_patterns : List RE := [reAnswer, reSolutionIs, reTherefore, reThus]

/-- Search the patterns in order; the first hit yields `group(1).strip()`. -/
def tryPatterns : List RE → List Char → Option (List Char)
  | [], _ => none
  | r :: rs, t =>
    match searchRE r t with
    | some (caps, _) => some (pyStrip (caps.getD 0 []))
    | none => tryPatterns rs t

/-- Fallback of `_extract_answer_from_response`: scanning the lines in
reverse, the first stripped line that is nonempty, does not end in `?`,
and is shorter than 100 characters. -/
def lastAnswerLine : List (List Char) → Option (List Char)
  | [] => none
  | l :: ls =>
    match lastAnswerLine ls with
    | some r => some r
    | none =>
      let l' := pyStrip l
      if !l'.isEmpty && !(l'.getLast? == some '?') && decide (l'.length < 100) then some l'
      else none

/-- `_extract_answer_from_response` on character lists. -/
def extractChars (t : List Char) : List Char :=
  if t = [] then []
  else
    match tryPatterns answer_patterns t with
    | some cap => cap
    | none =>
      match lastAnswerLine (splitOn '\n' (pyStrip t)) with
      | some l => l
      | none => pyStrip t

/-- `_extract_answer_from_response`. -/
def extract_answer_from_response (s : String) : String :=
  String.mk (extractChars s.data)

/-- The first numeral of a string under the scan `\d+(?:\.\d+)?` (the head
of the source's `re.findall` list), as an exact rational.  It is `some`
exactly when the findall list is non-empty. -/
def firstNum (t : List Char) : Option ℚ :=
  match searchRE reNum t with
  | some (caps, _) => some (parseNumChars (caps.getD 0 []))
  | none => none

/-- Token-set Jaccard similarity with the empty-set conventions of
`_calculate_similarity_score` (final rule). -/
def tokenScore (e a : List Char) : ℚ :=
  if (pySplit e).toFinset = ∅ ∧ (pySplit a).toFinset = ∅ then 1
  else if (pySplit e).toFinset = ∅ ∨ (pySplit a).toFinset = ∅ then 0
  else (((pySplit e).toFinset ∩ (pySplit a).toFinset).card : ℚ) /
    (((pySplit e).toFinset ∪ (pySplit a).toFinset).card : ℚ)

/-- `_calculate_similarity_score` on character lists.  The
`ZeroDivisionError` guard of the source (denominator zero) appears as the
`max x y ≠ 0` conjunct: when the division would raise, the code falls
through to the token rule, as the caught exception does. -/
def calcSim (e a : List Char) : ℚ :=
  if e = a then 1
  else if pyContains a e || pyContains e a then 9/10
  else
    match firstNum e, firstNum a with
    | some x, some y =>
      if |x - y| < 1/1000 then 19/20
      else if max x y ≠ 0 ∧ |x - y| / max x y < 1/20 then 4/5
      else tokenScore e a
    | _, _ => tokenScore e a

/-- `_calculate_similarity_score`. -/
def calculate_similarity_score (e a : String) : ℚ := calcSim e.data a.data

/-- The judge's reply scan `\d+\.\d+|\d+` (head of `re.findall`). -/
def reJudgeNum : RE :=
  .grp (.alt (.seq (.rep1 isDigitC) (.seq (.cls (· = '.')) (.rep1 isDigitC))) (.rep1 isDigitC))

/-- First numeral token of the stripped reply, if any. -/
def judgeParse (reply : String) : Option ℚ :=
  match searchRE reJudgeNum (pyStrip reply.data) with
  | some (caps, _) => some (parseNumChars (caps.getD 0 []))
  | none => none

/-- `_llm_evaluate_math_equivalence`, with the remote call modelled by its
outcome: `none` is any raised failure (network error, timeout, refused
call), `some r` a reply with content `r`.  A reply without a numeral hits
the `IndexError` of `findall(...)[0]`, caught like every other failure.
The prompt construction does not influence the returned score and is not
modelled. -/
def llm_evaluate_math_equivalence (client : Bool) (reply : Option String) : ℚ :=
  if !client then 0
  else
    match reply with
    | none => 0
    | some r =>
      match judgeParse r with
      | some v => min (max v 0) 1
      | none => 0

/-- `deepeval.test_case.LLMTestCase`, the two fields the metrics read. -/
structure LLMTestCase where
  expected_output : String
  actual_output : String

/-- The four score bands of `_generate_reason` (`Band.moderate` is the
source's `Partial match` band). -/
inductive Band where
  | excellent
  | good
  | moderate
  | poor
deriving DecidableEq

/-- The data carried by a `_generate_reason` message: its band and the
two literal answer strings (the float formatting of the message text is
not modelled). -/
structure Reason where
  band : Band
  expected : String
  actual : String
deriving DecidableEq

/-- `_generate_reason`. -/
def generate_reason (expected actual : String) (score : ℚ) : Reason :=
  ⟨if 19/20 ≤ score then .excellent
    else if 4/5 ≤ score then .good
    else if 1/2 ≤ score then .moderate
    else .poor, expected, actual⟩

/-- The configuration state of a `MathematicalAccuracyMetric` instance
(`client` records whether an OpenAI client was created). -/
structure MathematicalAccuracyMetric where
  threshold : ℚ
  model : String
  strict_matching : Bool
  include_reason : Bool
  use_llm_evaluation : Bool
  client : Bool
deriving DecidableEq

/-- `MathematicalAccuracyMetric.__init__`: stores the configuration
unvalidated; a client is created exactly when LLM evaluation is enabled. -/
def mkMathematicalAccuracyMetric (threshold : ℚ) (model : String)
    (strict_matching include_reason use_llm_evaluation : Bool) :
    MathematicalAccuracyMetric :=
  ⟨threshold, model, strict_matching, include_reason, use_llm_evaluation,
    use_llm_evaluation⟩

/-- What a `measure` call leaves on the metric object: `self.score`,
`self.success`, `self.reason`. -/
structure MetricOutcome where
  score : ℚ
  success : Bool
  reason : Option Reason
deriving DecidableEq

/-- `MathematicalAccuracyMetric.measure`, with the semantic judge's remote
outcome supplied as `reply`. -/
def MathematicalAccuracyMetric.measure (m : MathematicalAccuracyMetric)
    (reply : Option String) (tc : LLMTestCase) : MetricOutcome :=
  let actual_clean := extract_answer_from_response tc.actual_output
  let expected_normalized := normalize_mathematical_answer tc.expected_output
  let actual_normalized := normalize_mathematical_answer actual_clean
  let score :=
    if m.strict_matching then (if expected_normalized = actual_normalized then (1 : ℚ) else 0)
    else
      let s := calculate_similarity_score expected_normalized actual_normalized
      if s < 4/5 ∧ m.use_llm_evaluation = true then
        max s (llm_evaluate_math_equivalence m.client reply)
      else s
  ⟨score, decide (m.threshold ≤ score),
    if m.include_reason then some (generate_reason tc.expected_output actual_clean score) else none⟩

/-- The deterministic similarity score a non-strict `measure` call
computes before consulting the judge (lines 50-52 of the source:
`_calculate_similarity_score` on the two normalized answers). -/
def deterministicScore (tc : LLMTestCase) : ℚ :=
  calculate_similarity_score (normalize_mathematical_answer tc.expected_output)
    (normalize_mathematical_answer (extract_answer_from_response tc.actual_output))

/-- Keyword table of `_has_final_answer`. -/
def answer_indicators : List String :=
  ["answer", "solution", "result", "therefore", "thus", "final",
   "conclusion", "equals", "=", "is"]

/-- Keyword table of `_has_solution_steps`. -/
def step_indicators : List String :=
  ["step", "first", "second", "next", "then", "now", "calculate",
   "substitute", "solve", "simplify", "factor"]

/-- Keyword table of `_has_explanation`. -/
def explanation_indicators : List String :=
  ["because", "since", "due to", "reason", "explain", "why", "how",
   "method", "approach", "concept", "principle"]

/-- Keyword table of `_has_mathematical_reasoning`. -/
def reasoning_indicators : List String :=
  ["theorem", "formula", "equation", "property", "rule", "law",
   "identity", "relationship", "pattern"]

/-- `any(indicator in text.lower() for indicator in ...)`. -/
def containsKeyword (ks : List String) (t : String) : Bool :=
  ks.any fun k => pyContains (pyLower t.data) k.data

/-- `_has_final_answer`. -/
def has_final_answer (t : String) : Bool := containsKeyword answer_indicators t

/-- `_has_solution_steps`. -/
def has_solution_steps (t : String) : Bool := containsKeyword step_indicators t

/-- `_has_explanation`. -/
def has_explanation (t : String) : Bool := containsKeyword explanation_indicators t

/-- `_has_mathematical_reasoning`. -/
def has_mathematical_reasoning (t : String) : Bool :=
  containsKeyword reasoning_indicators t

/-- Configuration state of `MathSolutionCompletenessMetric`. -/
structure MathSolutionCompletenessMetric where
  threshold : ℚ
  include_reason : Bool
deriving DecidableEq

/-- `MathSolutionCompletenessMetric.__init__`: stores the configuration
unvalidated. -/
def mkMathSolutionCompletenessMetric (threshold : ℚ) (include_reason : Bool) :
    MathSolutionCompletenessMetric :=
  ⟨threshold, include_reason⟩

/-- Result of a completeness measurement: score, success, and the names of
the detected components (the reason message lists exactly these). -/
structure CompletenessOutcome where
  score : ℚ
  success : Bool
  components : List String
deriving DecidableEq

/-- `MathSolutionCompletenessMetric.measure` (the float weights 0.4, 0.3,
0.2, 0.1 modelled as exact rationals). -/
def MathSolutionCompletenessMetric.measure (m : MathSolutionCompletenessMetric)
    (tc : LLMTestCase) : CompletenessOutcome :=
  let t := tc.actual_output
  let score := (if has_final_answer t then (2/5 : ℚ) else 0)
    + (if has_solution_steps t then 3/10 else 0)
    + (if has_explanation t then 1/5 else 0)
    + (if has_mathematical_reasoning t then 1/10 else 0)
  let comps := (if has_final_answer t then ["final answer"] else [])
    ++ (if has_solution_steps t then ["solution steps"] else [])
    ++ (if has_explanation t then ["explanation"] else [])
    ++ (if has_mathematical_reasoning t then ["mathematical reasoning"] else [])
  ⟨score, decide (m.threshold ≤ score), comps⟩

/-- Pattern `confidence\s*:?\s*(\d+(?:\.\d+)?)`. -/
def reConfidence : RE :=
  .seq (.litCI ("confidence").data)
    (.seq (.star isPyWs) (.seq (.opt (.cls (· = ':'))) (.seq (.star isPyWs) reNum)))

/-- Pattern `(\d+(?:\.\d+)?)\s*%?\s*confident`. -/
def reConfident : RE :=
  .seq reNum (.seq (.star isPyWs) (.seq (.opt (.cls (· = '%')))
    (.seq (.star isPyWs) (.litCI ("confident").data))))

/-- Pattern `certainty\s*:?\s*(\d+(?:\.\d+)?)`. -/
def reCertainty : RE :=
  .seq (.litCI ("certainty").data)
    (.seq (.star isPyWs) (.seq (.opt (.cls (· = ':'))) (.seq (.star isPyWs) reNum)))

/-- The confidence patterns of `_extract_confidence`, in order. -/
def confidence_patterns : List RE := [reConfidence, reConfident, reCertainty]

/-- Search the confidence patterns in order; a value above 1 is read as a
percentage and divided by 100. -/
def tryConfidence : List RE → List Char → Option ℚ
  | [], _ => none
  | r :: rs, t =>
    match searchRE r t with
    | some (caps, _) =>
      let v := parseNumChars (caps.getD 0 [])
      some (if 1 < v then v / 100 else v)
    | none => tryConfidence rs t

/-- `_extract_confidence` (the source searches `text.lower()`). -/
def extract_confidence (t : String) : Option ℚ :=
  tryConfidence confidence_patterns (pyLower t.data)

/-- Configuration state of `MathConfidenceMetric`. -/
structure MathConfidenceMetric where
  threshold : ℚ
  include_reason : Bool
deriving DecidableEq

/-- `MathConfidenceMetric.__init__`: stores the configuration unvalidated. -/
def mkMathConfidenceMetric (threshold : ℚ) (include_reason : Bool) :
    MathConfidenceMetric :=
  ⟨threshold, include_reason⟩

/-- Result of a confidence measurement: score, success, and the extracted
self-reported confidence (`none` means the default-score path). -/
structure ConfidenceOutcome where
  score : ℚ
  success : Bool
  provided : Option ℚ
deriving DecidableEq

/-- `MathConfidenceMetric.measure`. -/
def MathConfidenceMetric.measure (m : MathConfidenceMetric)
    (tc : LLMTestCase) : ConfidenceOutcome :=
  match extract_confidence tc.actual_output with
  | none => ⟨1/2, decide (m.threshold ≤ (1/2 : ℚ)), none⟩
  | some c => ⟨min (c + 1/5) 1, decide (m.threshold ≤ min (c + 1/5) 1), some c⟩

/-! Helper lemmas. -/

/-- Rebuilding a string from its character list is the identity. -/
lemma mk_data (s : String) : String.mk s.data = s := by
  cases s
  rfl

/-- Distinct strings have distinct character lists. -/
lemma data_ne_of_ne {s t : String} (h : s ≠ t) : s.data ≠ t.data := by
  intro hd
  exact h (by rw [← mk_data s, ← mk_data t, hd])

/-- The empty pattern is a Python substring of every string. -/
lemma pyContains_nil (t : List Char) : pyContains t [] = true := by
  simp only [pyContains, List.any_eq_true]
  refine ⟨0, by simp, ?_⟩
  simp [List.isPrefixOf]

/-- Parsed numerals are nonnegative. -/
lemma parseNumChars_nonneg (l : List Char) : 0 ≤ parseNumChars l := by
  unfold parseNumChars
  positivity

/-- The first numeral a string yields is nonnegative (the scan has no sign). -/
lemma firstNum_nonneg {t : List Char} {q : ℚ} (h : firstNum t = some q) : 0 ≤ q := by
  unfold firstNum at h
  cases hs : searchRE reNum t with
  | none => rw [hs] at h; cases h
  | some res =>
    rw [hs] at h
    cases h
    exact parseNumChars_nonneg _

/-- The token-based Jaccard score lies in the unit interval. -/
lemma tokenScore_bounds (e a : List Char) : 0 ≤ tokenScore e a ∧ tokenScore e a ≤ 1 := by
  unfold tokenScore
  split_ifs with h1 h2
  · norm_num
  · norm_num
  · push_neg at h2
    have hu : ((pySplit e).toFinset ∪ (pySplit a).toFinset).Nonempty := by
      rcases Finset.nonempty_iff_ne_empty.mpr h2.1 with ⟨w, hw⟩
      exact ⟨w, Finset.mem_union_left _ hw⟩
    have hupos : (0 : ℚ) < (((pySplit e).toFinset ∪ (pySplit a).toFinset).card : ℚ) := by
      exact_mod_cast Finset.card_pos.mpr hu
    constructor
    · exact div_nonneg (Nat.cast_nonneg _) (Nat.cast_nonneg _)
    · rw [div_le_one hupos]
      exact_mod_cast Finset.card_le_card
        (Finset.inter_subset_left.trans Finset.subset_union_left)

/-! The claims. -/

/-- C1 (counterexample): the Normalizer is not idempotent.  Normalizing
"min" yields "minutes", which a second normalization rewrites to
"minutesutes", because the unit substitution `min -> minutes` applies
again inside its own previous output. -/
theorem C1_normalize_not_idempotent :
    normalize_mathematical_answer "min" = "minutes" ∧
    normalize_mathematical_answer "minutes" = "minutesutes" ∧
    normalize_mathematical_answer (normalize_mathematical_answer "min") ≠
      normalize_mathematical_answer "min" := by
  with_unfolding_all decide

/-- C1 (amended): the normalization pipeline is idempotent at every input
whose normalized form is left unchanged by each individual pipeline stage
(lowercase/trim, label stripping, symbol replacement, fraction
normalization, percentage normalization, unit normalization, whitespace
collapse, edge-punctuation strip); idempotence does not hold for every
string. -/
theorem C1_normalize_idempotent_on_stage_fixed (x : String)
    (h1 : lowerStrip (normalize_mathematical_answer x).data = (normalize_mathematical_answer x).data)
    (h2 : stripLabels (normalize_mathematical_answer x).data = (normalize_mathematical_answer x).data)
    (h3 : applySymbols (normalize_mathematical_answer x).data = (normalize_mathematical_answer x).data)
    (h4 : normalize_fractions (normalize_mathematical_answer x).data = (normalize_mathematical_answer x).data)
    (h5 : normalize_percentages (normalize_mathematical_answer x).data = (normalize_mathematical_answer x).data)
    (h6 : normalize_units (normalize_mathematical_answer x).data = (normalize_mathematical_answer x).data)
    (h7 : collapseWs (normalize_mathematical_answer x).data = (normalize_mathematical_answer x).data)
    (h8 : stripPunctWs (normalize_mathematical_answer x).data = (normalize_mathematical_answer x).data) :
    normalize_mathematical_answer (normalize_mathematical_answer x) =
      normalize_mathematical_answer x := by
  have hY : normalizeChars (normalize_mathematical_answer x).data =
      (normalize_mathematical_answer x).data := by
    by_cases hnil : (normalize_mathematical_answer x).data = []
    · rw [normalizeChars, if_pos hnil, hnil]
    · rw [normalizeChars, if_neg hnil, h1, h2, h3, h4, h5, h6, h7, h8]
  show String.mk (normalizeChars (normalize_mathematical_answer x).data) =
    normalize_mathematical_answer x
  rw [hY, mk_data]

/-- Witness for the amended C1 at the concrete input "Answer: 42", whose
normalized form "42" is fixed by every stage. -/
theorem C1_idempotent_witness :
    lowerStrip (normalize_mathematical_answer "Answer: 42").data =
        (normalize_mathematical_answer "Answer: 42").data ∧
    normalize_mathematical_answer (normalize_mathematical_answer "Answer: 42") =
      normalize_mathematical_answer "Answer: 42" :=
  ⟨by with_unfolding_all decide,
    C1_normalize_idempotent_on_stage_fixed "Answer: 42"
      (by with_unfolding_all decide) (by with_unfolding_all decide)
      (by with_unfolding_all decide) (by with_unfolding_all decide)
      (by with_unfolding_all decide) (by with_unfolding_all decide)
      (by with_unfolding_all decide) (by with_unfolding_all decide)⟩

/-- C2 (counterexample): with expected "" and actual "5" the scorer
returns 0.9 through the containment rule (the empty string is a Python
substring of every string), not 0.0 through the Jaccard empty-set
branch. -/
theorem C2_empty_string_scores_cex :
    calculate_similarity_score "" "5" = 9/10 ∧
    calculate_similarity_score "" "5" ≠ 0 := by
  with_unfolding_all decide

/-- C2 (amended): when exactly one of the two normalized strings is empty
(so they are unequal), the scorer returns 0.9 via the containment rule,
because the empty string is a substring of every string; when both are
empty it returns 1.0 via the equality rule.  The empty-token-set 0.0
branch is not reached on these inputs. -/
theorem C2_empty_string_scores (s : String) (h : s ≠ "") :
    calculate_similarity_score "" s = 9/10 ∧
    calculate_similarity_score s "" = 9/10 ∧
    calculate_similarity_score "" "" = 1 := by
  have hne : s.data ≠ ([] : List Char) := data_ne_of_ne h
  refine ⟨?_, ?_, by with_unfolding_all decide⟩
  · show calcSim [] s.data = 9/10
    rw [calcSim, if_neg (fun hc => hne hc.symm), pyContains_nil]
    simp
  · show calcSim s.data [] = 9/10
    rw [calcSim, if_neg hne, pyContains_nil]
    simp

/-- Witness for the amended C2 at the nonempty string "5". -/
theorem C2_empty_string_scores_witness :
    ("5" : String) ≠ "" ∧ calculate_similarity_score "" "5" = 9/10 :=
  ⟨by with_unfolding_all decide, (C2_empty_string_scores "5" (by with_unfolding_all decide)).1⟩

/-- C3: in a non-strict `measure` call the deterministic similarity score
is a floor for the final score; the judge is consulted only when that
score is below 0.8 with LLM evaluation enabled (otherwise the result does
not depend on the judge's reply at all); and in the consulted case the
final score is exactly the maximum of the two. -/
theorem C3_semantic_judge_floor (m : MathematicalAccuracyMetric)
    (reply : Option String) (tc : LLMTestCase) (h : m.strict_matching = false) :
    deterministicScore tc ≤ (m.measure reply tc).score ∧
    ((4/5 ≤ deterministicScore tc ∨ m.use_llm_evaluation = false) →
      ∀ reply2 : Option String, m.measure reply tc = m.measure reply2 tc) ∧
    ((deterministicScore tc < 4/5 ∧ m.use_llm_evaluation = true) →
      (m.measure reply tc).score =
        max (deterministicScore tc) (llm_evaluate_math_equivalence m.client reply)) := by
  have hm : ∀ rep : Option String, m.measure rep tc =
      ⟨if deterministicScore tc < 4/5 ∧ m.use_llm_evaluation = true then
          max (deterministicScore tc) (llm_evaluate_math_equivalence m.client rep)
        else deterministicScore tc,
        decide (m.threshold ≤
          if deterministicScore tc < 4/5 ∧ m.use_llm_evaluation = true then
            max (deterministicScore tc) (llm_evaluate_math_equivalence m.client rep)
          else deterministicScore tc),
        if m.include_reason = true then
          some (generate_reason tc.expected_output
            (extract_answer_from_response tc.actual_output)
            (if deterministicScore tc < 4/5 ∧ m.use_llm_evaluation = true then
              max (deterministicScore tc) (llm_evaluate_math_equivalence m.client rep)
            else deterministicScore tc))
        else none⟩ := by
    intro rep
    simp only [MathematicalAccuracyMetric.measure, h, Bool.false_eq_true, if_false,
      deterministicScore]
  refine ⟨?_, ?_, ?_⟩
  · rw [hm reply]
    show deterministicScore tc ≤ if _ then _ else _
    split_ifs with hc
    · exact le_max_left _ _
    · exact le_rfl
  · intro hyp reply2
    have hc : ¬(deterministicScore tc < 4/5 ∧ m.use_llm_evaluation = true) := by
      rcases hyp with hle | hfalse
      · exact fun hcc => absurd hcc.1 (not_lt.mpr hle)
      · exact fun hcc => by rw [hfalse] at hcc; exact Bool.false_ne_true hcc.2
    rw [hm reply, hm reply2]
    simp only [if_neg hc]
  · intro hcc
    rw [hm reply]
    show (if _ then _ else _) = _
    rw [if_pos hcc]

/-- Witness for C3 at a concrete non-strict metric and case. -/
theorem C3_semantic_judge_floor_witness :
    (mkMathematicalAccuracyMetric (9/10) "gpt-4.1" false true true).strict_matching = false ∧
    deterministicScore ⟨"5", "7"⟩ ≤
      ((mkMathematicalAccuracyMetric (9/10) "gpt-4.1" false true true).measure
        (some "0.9") ⟨"5", "7"⟩).score :=
  ⟨rfl, (C3_semantic_judge_floor (mkMathematicalAccuracyMetric (9/10) "gpt-4.1" false true true)
    (some "0.9") ⟨"5", "7"⟩ rfl).1⟩

/-- C4: for each of the three metrics, every measurement satisfies
`passed = (score >= threshold)` with the threshold fixed at construction. -/
theorem C4_passed_iff_threshold (m : MathematicalAccuracyMetric)
    (reply : Option String) (tc tc2 tc3 : LLMTestCase)
    (mc : MathSolutionCompletenessMetric) (mf : MathConfidenceMetric) :
    ((m.measure reply tc).success = true ↔ m.threshold ≤ (m.measure reply tc).score) ∧
    ((mc.measure tc2).success = true ↔ mc.threshold ≤ (mc.measure tc2).score) ∧
    ((mf.measure tc3).success = true ↔ mf.threshold ≤ (mf.measure tc3).score) := by
  refine ⟨decide_eq_true_iff, decide_eq_true_iff, ?_⟩
  cases hx : extract_confidence tc3.actual_output with
  | none => simp only [MathConfidenceMetric.measure, hx]; exact decide_eq_true_iff
  | some c => simp only [MathConfidenceMetric.measure, hx]; exact decide_eq_true_iff

/-- C5: the judge integration never raises: a failed call or a reply
without a numeral scores 0.0; a reply whose first numeral token parses to
`v` scores `min (max v 0) 1`, which lies in the unit interval; and with no
client it returns 0.0. -/
theorem C5_judge_never_raises (r : String) (v : ℚ) (reply : Option String)
    (h : judgeParse r = some v) :
    llm_evaluate_math_equivalence true none = 0 ∧
    (∀ r2 : String, judgeParse r2 = none → llm_evaluate_math_equivalence true (some r2) = 0) ∧
    llm_evaluate_math_equivalence true (some r) = min (max v 0) 1 ∧
    0 ≤ llm_evaluate_math_equivalence true (some r) ∧
    llm_evaluate_math_equivalence true (some r) ≤ 1 ∧
    llm_evaluate_math_equivalence false reply = 0 := by
  have h3 : llm_evaluate_math_equivalence true (some r) = min (max v 0) 1 := by
    simp only [llm_evaluate_math_equivalence, h]
    rfl
  refine ⟨rfl, ?_, h3, ?_, ?_, rfl⟩
  · intro r2 h2
    simp only [llm_evaluate_math_equivalence, h2]
    rfl
  · rw [h3]
    exact le_min (le_max_right _ _) zero_le_one
  · rw [h3]
    exact min_le_right _ _

/-- Witness for C5 at the reply "Score: 0.85". -/
theorem C5_judge_never_raises_witness :
    judgeParse "Score: 0.85" = some (17/20) ∧
    llm_evaluate_math_equivalence true (some "Score: 0.85") = min (max (17/20 : ℚ) 0) 1 :=
  ⟨by with_unfolding_all decide,
    (C5_judge_never_raises "Score: 0.85" (17/20) none (by with_unfolding_all decide)).2.2.1⟩

/-- C6: the similarity scorer is total with values in the unit interval:
every branch returns a constant in [0,1] or a Jaccard ratio, and both the
numeral-parse failure and the zero-denominator relative difference fall
through to the token rule instead of raising. -/
theorem C6_score_total_bounded (e a : String) :
    0 ≤ calculate_similarity_score e a ∧ calculate_similarity_score e a ≤ 1 := by
  show 0 ≤ calcSim e.data a.data ∧ calcSim e.data a.data ≤ 1
  rw [calcSim]
  split_ifs with h1 h2
  · norm_num
  · norm_num
  · split
    · split_ifs with hd hr
      · norm_num
      · norm_num
      · exact tokenScore_bounds _ _
    · exact tokenScore_bounds _ _

/-- C7: when both strings contain a numeral and neither the equality nor
the containment rule fired, the scorer compares the first numerals: 0.95
under the absolute tolerance, else 0.8 under the 5 percent relative
tolerance (the parsed numerals are nonnegative, so the source's
`max(a, b)` denominator equals `max(|a|, |b|)`), and otherwise the token
rule decides. -/
theorem C7_numeral_tolerance_rule (e a : String) (x y : ℚ)
    (h1 : firstNum e.data = some x) (h2 : firstNum a.data = some y)
    (h3 : e.data ≠ a.data)
    (h4 : (pyContains a.data e.data || pyContains e.data a.data) = false) :
    (|x - y| < 1/1000 → calculate_similarity_score e a = 19/20) ∧
    (¬(|x - y| < 1/1000) → |x - y| / max |x| |y| < 1/20 →
      calculate_similarity_score e a = 4/5) ∧
    (¬(|x - y| < 1/1000) → ¬(|x - y| / max |x| |y| < 1/20) →
      calculate_similarity_score e a = tokenScore e.data a.data) := by
  have hx := firstNum_nonneg h1
  have hy := firstNum_nonneg h2
  have habs : max |x| |y| = max x y := by rw [abs_of_nonneg hx, abs_of_nonneg hy]
  have hbase : calculate_similarity_score e a =
      (if |x - y| < 1/1000 then (19/20 : ℚ)
        else if max x y ≠ 0 ∧ |x - y| / max x y < 1/20 then 4/5
        else tokenScore e.data a.data) := by
    show calcSim e.data a.data = _
    rw [calcSim, if_neg h3, h4, if_neg (by simp), h1, h2]
  refine ⟨?_, ?_, ?_⟩
  · intro hd
    rw [hbase, if_pos hd]
  · intro hd hr
    have hmax : max x y ≠ 0 := by
      intro h0
      have hx0 : x = 0 := le_antisymm (h0 ▸ le_max_left x y) hx
      have hy0 : y = 0 := le_antisymm (h0 ▸ le_max_right x y) hy
      exact hd (by rw [hx0, hy0]; norm_num)
    rw [hbase, if_neg hd, if_pos ⟨hmax, by rwa [habs] at hr⟩]
  · intro hd hr
    rw [hbase, if_neg hd, if_neg (fun hc => hr (by rw [habs]; exact hc.2))]

/-- Witness for C7 on "12 apples" versus "13 oranges". -/
theorem C7_numeral_tolerance_rule_witness :
    firstNum ("12 apples").data = some 12 ∧
    firstNum ("13 oranges").data = some 13 ∧
    (¬(|(12 : ℚ) - 13| < 1/1000) → ¬(|(12 : ℚ) - 13| / max |(12 : ℚ)| |(13 : ℚ)| < 1/20) →
      calculate_similarity_score "12 apples" "13 oranges" =
        tokenScore ("12 apples").data ("13 oranges").data) :=
  ⟨by with_unfolding_all decide, by with_unfolding_all decide,
    (C7_numeral_tolerance_rule "12 apples" "13 oranges" 12 13
      (by with_unfolding_all decide) (by with_unfolding_all decide)
      (by with_unfolding_all decide) (by with_unfolding_all decide)).2.2⟩

/-- C8 (counterexample): after stripping "answer:", the remaining text
begins with the listed prefix "solution:", and the code strips that one
too: the result is "5", not "solution: 5". -/
theorem C8_prefix_strip_cex :
    normalize_mathematical_answer "answer: solution: 5" = "5" ∧
    normalize_mathematical_answer "answer: solution: 5" ≠ "solution: 5" := by
  with_unfolding_all decide

/-- C8 (amended): each of the five label prefixes is checked once, in the
fixed source order, and every match is stripped — so a prefix listed after
an already-stripped one is removed in the same call, while a prefix listed
before an already-stripped one is kept. -/
theorem C8_prefix_strip_order :
    normalize_mathematical_answer "answer: solution: 5" = "5" ∧
    normalize_mathematical_answer "solution: answer: 5" = "answer: 5" ∧
    stripLabels ("answer: solution: 5").data = ("5").data ∧
    stripLabels ("solution: answer: 5").data = ("answer: 5").data := by
  with_unfolding_all decide

/-- C9: the three constructors perform no validation: a threshold outside
[0,1] and an unknown model id are stored as given, and a measurement still
runs afterwards (the out-of-range threshold merely decides `passed`), so
nothing fails at construction time. -/
theorem C9_constructors_accept_invalid :
    (mkMathematicalAccuracyMetric 5 "not-a-model" false true true).threshold = 5 ∧
    (mkMathematicalAccuracyMetric 5 "not-a-model" false true true).model = "not-a-model" ∧
    (mkMathSolutionCompletenessMetric (3/2) true).threshold = 3/2 ∧
    (mkMathConfidenceMetric (-1) true).threshold = -1 ∧
    ((mkMathematicalAccuracyMetric 5 "not-a-model" true true false).measure
      none ⟨"5", "5"⟩).success = false := by
  refine ⟨rfl, rfl, rfl, rfl, ?_⟩
  with_unfolding_all decide

/-- C10: normalization strips a leading minus sign as edge punctuation
("-5" becomes "5", so expected "5" matches actual "-5" exactly), and the
unsigned numeral scan makes "x = -5" and "x = 5" agree on their first
numeral, scoring 0.95. -/
theorem C10_sign_insensitivity :
    normalize_mathematical_answer "-5" = "5" ∧
    calculate_similarity_score (normalize_mathematical_answer "5")
      (normalize_mathematical_answer "-5") = 1 ∧
    normalize_mathematical_answer "x = -5" = "x = -5" ∧
    normalize_mathematical_answer "x = 5" = "x = 5" ∧
    calculate_similarity_score "x = -5" "x = 5" = 19/20 := by
  with_unfolding_all decide

end MathEval
